import Mathlib

/-!
Shallow embedding of the single-page book-catalog client in `src/src/App.jsx`.

The component keeps React state
(`form, loading, submitting, error, books, query, categoryFilter, expandedId`)
and three async operations (`fetchBooks`, `handleSubmit`, `handleDelete`).
We model the state as an explicit structure and each handler as a pure
function from the state at invocation time, the results of the network
calls it performs (supplied as parameters, since the backend is external),
and — for `handleSubmit` — the filter values the user may have typed while
the create request was in flight, to the resulting state together with the
trace of network requests issued.

Closure capture: in React, a running handler keeps the state values of the
render that created it, so the `fetchBooks()` call made from inside
`handleSubmit` builds its query parameters from `query`/`categoryFilter`
as they were when the submit began, even if the user changed them while
the create request was awaited.  The embedding makes this explicit:
`handleSubmitE` takes the mid-flight filter values `midQ`/`midC` (equal to
the old ones when nothing changed) and the internal refetch uses the
captured `s0.query`/`s0.categoryFilter`.
-/

namespace BookApp

/-- A book record as returned by the backend (`GET /api/books`). -/
structure Book where
  id : Nat
  title : String
  author : String
  category : String
  description : String
  text_summary : String
  cover_image_url : String
  audio_summary_url : String
deriving DecidableEq

/-- The create-form draft (`emptyForm` shape in App.jsx). -/
structure Form where
  title : String
  author : String
  category : String
  description : String
  text_summary : String
  cover_image_url : String
  audio_summary_url : String
deriving DecidableEq

/-- `emptyForm` from App.jsx: every field the empty string. -/
def emptyForm : Form :=
  { title := "", author := "", category := "", description := ""
    text_summary := "", cover_image_url := "", audio_summary_url := "" }

/-- The component's React state (the `useState` hooks of App.jsx). -/
structure AppState where
  form : Form
  loading : Bool
  submitting : Bool
  error : String
  books : List Book
  query : String
  categoryFilter : String
  expandedId : Option Nat
deriving DecidableEq

/-- The initial values of the `useState` hooks. -/
def initialState : AppState :=
  { form := emptyForm, loading := false, submitting := false, error := ""
    books := [], query := "", categoryFilter := "", expandedId := none }

/-- A network request issued by the client, recorded in a trace. -/
inductive NetEvent where
  | listReq (params : List (String × String))
  | createReq (payload : Form)
  | deleteReq (id : Nat)
deriving DecidableEq

/-- Outcome of the `fetch` in `fetchBooks`: rejection (network error, whose
message the catch block surfaces), a non-ok HTTP response, or ok with the
decoded book array. -/
inductive ListResult where
  | netError (msg : String)
  | notOk
  | ok (data : List Book)

/-- Outcome of the `POST /api/books` fetch in `handleSubmit`: rejection with
a message, a non-ok HTTP response with its body text, or ok. -/
inductive CreateResult where
  | netError (msg : String)
  | httpError (body : String)
  | ok

/-- Outcome of the `DELETE /api/books/{id}` fetch: rejection, or a response
carrying some HTTP status.  `handleDelete` never reads `res.ok`, so the
flag is recorded but unused. -/
inductive DeleteResult where
  | netError
  | resolved (ok : Bool)

/-- The `URLSearchParams` built in `fetchBooks`: `q` is set only when
`query` is non-empty (JS truthiness on a string), then `category` only
when `categoryFilter` is non-empty. -/
def listParams (query categoryFilter : String) : List (String × String) :=
  (if query ≠ "" then [("q", query)] else []) ++
    (if categoryFilter ≠ "" then [("category", categoryFilter)] else [])

/-- `fetchBooks` with the closure-captured filter values `q`/`c` made
explicit: sets `loading`, issues the list request, on ok replaces `books`,
on a non-ok response sets `error` to "Failed to load books", on rejection
sets `error` to the exception message; `finally` clears `loading`. -/
def fetchBooksWith (q c : String) (s : AppState) (r : ListResult) :
    AppState × List NetEvent :=
  let ev := NetEvent.listReq (listParams q c)
  match r with
  | .ok data => ({ s with books := data, loading := false }, [ev])
  | .notOk => ({ s with error := "Failed to load books", loading := false }, [ev])
  | .netError m => ({ s with error := m, loading := false }, [ev])

/-- `fetchBooks` invoked directly (Search button, Enter key, initial load):
the captured filter values are the current ones. -/
def fetchBooks (s : AppState) (r : ListResult) : AppState × List NetEvent :=
  fetchBooksWith s.query s.categoryFilter s r

/-- The validation message thrown by `handleSubmit` when a required field
is empty. -/
def validationMsg : String := "Please fill title, author and category"

/-- The first two synchronous statements of `handleSubmit`:
`setError('')` then `setSubmitting(true)`, before any validation. -/
def handleSubmitStart (s : AppState) : AppState :=
  { s with error := "", submitting := true }

/-- `handleSubmit`.  `midQ`/`midC` are the values of `query`/`categoryFilter`
after any edits the user made while the create request was in flight
(pass the old values for the sequential case); they take effect only on
the paths where a request was actually awaited.  The validation check
`!form.title || !form.author || !form.category` runs synchronously, so no
mid-flight edit can precede it.  On create success the refetch uses the
closure-captured filters of the invoking render (`s0.query`,
`s0.categoryFilter`), not the mid-flight ones. -/
def handleSubmitE (s0 : AppState) (midQ midC : String) (cr : CreateResult)
    (lr : ListResult) : AppState × List NetEvent :=
  let s1 := handleSubmitStart s0
  if s0.form.title = "" ∨ s0.form.author = "" ∨ s0.form.category = "" then
    ({ s1 with error := validationMsg, submitting := false }, [])
  else
    let ev := NetEvent.createReq s0.form
    let sMid := { s1 with query := midQ, categoryFilter := midC }
    match cr with
    | .netError m => ({ sMid with error := m, submitting := false }, [ev])
    | .httpError body =>
        ({ sMid with
            error := if body = "" then "Failed to add book" else body,
            submitting := false }, [ev])
    | .ok =>
        let s2 := { sMid with form := emptyForm }
        let res := fetchBooksWith s0.query s0.categoryFilter s2 lr
        ({ res.1 with submitting := false }, ev :: res.2)

/-- `handleDelete`: if the `confirm` dialog is declined, return at once.
Otherwise issue the delete request; if that fetch rejects, set `error` to
"Delete failed" and stop (the refetch inside the `try` is skipped); if it
resolves — with any HTTP status, success or not, since `res.ok` is never
read — run `fetchBooks()` (which handles its own errors and never
throws). -/
def handleDeleteE (s : AppState) (id : Nat) (confirmed : Bool)
    (dr : DeleteResult) (lr : ListResult) : AppState × List NetEvent :=
  if !confirmed then (s, [])
  else
    let ev := NetEvent.deleteReq id
    match dr with
    | .netError => ({ s with error := "Delete failed" }, [ev])
    | .resolved _ =>
        let res := fetchBooksWith s.query s.categoryFilter s lr
        (res.1, ev :: res.2)

/-- The Read/Hide button: `setExpandedId(expandedId===b.id ? null : b.id)`. -/
def toggleExpanded (s : AppState) (id : Nat) : AppState :=
  { s with expandedId := if s.expandedId = some id then none else some id }

/-- First-occurrence deduplication, the order a JS `Set` keeps when built
from a list (`Array.from(new Set(xs))`): keep each element's first
occurrence, dropping its later repeats. -/
def dedupFirst : List String → List String
  | [] => []
  | a :: l => a :: (dedupFirst l).filter (fun b => b ≠ a)

/-- JS `String.prototype.trim` as used on category values: strip leading
and trailing whitespace characters.  Modelled over the string's character
list (core `String.trim` is extensionally the same on these inputs but is
defined by position-indexed well-founded recursion, which blocks kernel
evaluation on concrete strings). -/
def jsTrim (s : String) : String :=
  ⟨(((s.data.dropWhile Char.isWhitespace).reverse).dropWhile Char.isWhitespace).reverse⟩

/-- Lexicographic "less or equal" on character lists, the order JS
`Array.prototype.sort()` uses on strings (elementwise `<` comparisons,
first difference decides; a prefix sorts before its extensions). -/
def charListLe : List Char → List Char → Bool
  | [], _ => true
  | _ :: _, [] => false
  | a :: as, b :: bs =>
    if a < b then true
    else if b < a then false
    else charListLe as bs

/-- The default JS string comparator, as a Boolean relation on strings. -/
def jsLeb (a b : String) : Bool := charListLe a.data b.data

/-- The derived `categories` memo:
`Array.from(new Set(books.map(b => (b.category || '').trim()).filter(Boolean))).sort()`.
For a string-valued `category`, `b.category || ''` is the identity (the
only falsy string is `''`).  `filter(Boolean)` keeps the non-empty trimmed
values.  JS `sort()` produces the sorted permutation under the default
string comparator; on the duplicate-free output of the `Set` that sorted
permutation is unique, so any comparison sort models it. -/
def categories (books : List Book) : List String :=
  List.insertionSort (fun a b => jsLeb a b = true)
    (dedupFirst ((books.map (fun b => jsTrim b.category)).filter (fun s => s ≠ "")))

theorem charListLe_iff : ∀ l₁ l₂ : List Char,
    charListLe l₁ l₂ = true ↔ ¬ List.Lex (· < ·) l₂ l₁ := by
  intro l₁
  induction l₁ with
  | nil =>
    intro l₂
    simp [charListLe, List.Lex.not_nil_right _ _]
  | cons a as ih =>
    intro l₂
    cases l₂ with
    | nil =>
      simp only [charListLe, Bool.false_eq_true, false_iff, not_not]
      exact List.Lex.nil
    | cons b bs =>
      rw [charListLe]
      rcases lt_trichotomy a b with hab | hab | hab
      · rw [if_pos hab]
        simp only [true_iff]
        intro hlex
        cases hlex with
        | cons _ => exact absurd hab (lt_irrefl a)
        | rel h => exact absurd (hab.trans h) (lt_irrefl a)
      · subst hab
        rw [if_neg (lt_irrefl a), if_neg (lt_irrefl a)]
        rw [ih bs, List.Lex.cons_iff]
      · rw [if_neg (asymm hab), if_pos hab]
        simp only [Bool.false_eq_true, false_iff, not_not]
        exact List.Lex.rel hab

/-- The JS comparator coincides with the lexicographic order on strings. -/
theorem jsLeb_iff (a b : String) : jsLeb a b = true ↔ a ≤ b := by
  rw [String.le_iff_toList_le, ← not_lt]
  exact charListLe_iff a.data b.data

instance : IsTrans String (fun a b => jsLeb a b = true) :=
  ⟨fun a b c hab hbc =>
    (jsLeb_iff a c).mpr (le_trans ((jsLeb_iff a b).mp hab) ((jsLeb_iff b c).mp hbc))⟩

instance : IsTotal String (fun a b => jsLeb a b = true) :=
  ⟨fun a b => (le_total a b).imp (jsLeb_iff a b).mpr (jsLeb_iff b a).mpr⟩

theorem mem_dedupFirst : ∀ (l : List String) (x : String),
    x ∈ dedupFirst l ↔ x ∈ l := by
  intro l
  induction l with
  | nil => simp [dedupFirst]
  | cons a l ih =>
    intro x
    rw [dedupFirst]
    simp only [List.mem_cons, List.mem_filter, ih]
    by_cases hxa : x = a <;> simp [hxa]

theorem nodup_dedupFirst : ∀ l : List String, (dedupFirst l).Nodup := by
  intro l
  induction l with
  | nil => simp [dedupFirst]
  | cons a l ih =>
    simp only [dedupFirst, List.nodup_cons]
    refine ⟨fun hmem => ?_, ih.filter _⟩
    rw [List.mem_filter] at hmem
    simp at hmem

/-- Claim C1: when the draft's title, author, or category is the empty
string, a submit issues no network request and leaves the error message
equal to the validation message "Please fill title, author and category". -/
theorem c1_validation_blocks (s : AppState) (midQ midC : String)
    (cr : CreateResult) (lr : ListResult)
    (h : s.form.title = "" ∨ s.form.author = "" ∨ s.form.category = "") :
    (handleSubmitE s midQ midC cr lr).2 = [] ∧
    (handleSubmitE s midQ midC cr lr).1.error = validationMsg := by
  unfold handleSubmitE
  rw [if_pos h]
  exact ⟨rfl, rfl⟩

/-- Witness for C1 at the initial state (empty draft). -/
theorem c1_validation_blocks_witness :
    (handleSubmitE initialState "" "" .ok (.ok [])).2 = [] ∧
    (handleSubmitE initialState "" "" .ok (.ok [])).1.error = validationMsg :=
  c1_validation_blocks initialState "" "" .ok (.ok []) (Or.inl rfl)

/-- Claim C4: a failing list fetch (network rejection or non-ok response)
sets the error message to the failure's description, leaves the book list
unchanged, and ends with the loading flag false. -/
theorem c4_fetch_failure (s : AppState) (msg : String) :
    ((fetchBooks s (.netError msg)).1.error = msg ∧
     (fetchBooks s (.netError msg)).1.books = s.books ∧
     (fetchBooks s (.netError msg)).1.loading = false) ∧
    ((fetchBooks s .notOk).1.error = "Failed to load books" ∧
     (fetchBooks s .notOk).1.books = s.books ∧
     (fetchBooks s .notOk).1.loading = false) := by
  exact ⟨⟨rfl, rfl, rfl⟩, ⟨rfl, rfl, rfl⟩⟩

/-- Claim C7: a successful list fetch leaves a previously set non-empty
error message exactly as it was; the next create attempt clears it
(`setError('')` is the first statement of `handleSubmit`). -/
theorem c7_error_survives_fetch (s : AppState) (data : List Book)
    (_h : s.error ≠ "") :
    (fetchBooks s (.ok data)).1.error = s.error ∧
    (handleSubmitStart s).error = "" :=
  ⟨rfl, rfl⟩

/-- Witness for C7 at a state holding the error message "boom". -/
theorem c7_error_survives_fetch_witness :
    (fetchBooks { initialState with error := "boom" } (.ok [])).1.error =
      ({ initialState with error := "boom" } : AppState).error ∧
    (handleSubmitStart { initialState with error := "boom" }).error = "" :=
  c7_error_survives_fetch { initialState with error := "boom" } [] (by decide)

/-- Claim C9: declining the delete confirmation is a no-op: the state is
returned untouched and no request of any kind is issued. -/
theorem c9_decline_noop (s : AppState) (id : Nat) (dr : DeleteResult)
    (lr : ListResult) :
    handleDeleteE s id false dr lr = (s, []) :=
  rfl

/-- Claim C10: every submit first sets the submitting flag and clears the
prior error (before validation runs, since `setError('')` and
`setSubmitting(true)` precede the required-field check), and on every
path — validation failure, request failure, or success — the final state
has the submitting flag false. -/
theorem c10_submitting_lifecycle (s : AppState) (midQ midC : String)
    (cr : CreateResult) (lr : ListResult) :
    (handleSubmitStart s).submitting = true ∧
    (handleSubmitStart s).error = "" ∧
    (handleSubmitE s midQ midC cr lr).1.submitting = false := by
  refine ⟨rfl, rfl, ?_⟩
  by_cases h : s.form.title = "" ∨ s.form.author = "" ∨ s.form.category = ""
  · simp only [handleSubmitE, if_pos h]
  · simp only [handleSubmitE, if_neg h]
    cases cr with
    | netError m => rfl
    | httpError body => rfl
    | ok => cases lr <;> rfl

/-- Claim C2: the derived category options are sorted, duplicate-free, and
contain exactly the non-empty trimmed category values of the current book
list; on books with categories "Self-help", "self-help ", "", "Fiction"
the options are ["Fiction", "Self-help", "self-help"] (trimming does not
lowercase, so case-distinct values stay distinct). -/
theorem c2_categories_spec (books : List Book) :
    List.Sorted (· ≤ ·) (categories books) ∧
    (categories books).Nodup ∧
    (∀ s : String, s ∈ categories books ↔
      (s ≠ "" ∧ ∃ b ∈ books, jsTrim b.category = s)) ∧
    categories
      [⟨1, "", "", "Self-help", "", "", "", ""⟩,
       ⟨2, "", "", "self-help ", "", "", "", ""⟩,
       ⟨3, "", "", "", "", "", "", ""⟩,
       ⟨4, "", "", "Fiction", "", "", "", ""⟩] =
      ["Fiction", "Self-help", "self-help"] := by
  refine ⟨(List.sorted_insertionSort _ _).imp fun h => (jsLeb_iff _ _).mp h, ?_, ?_, ?_⟩
  · exact ((List.perm_insertionSort _ _).nodup_iff).mpr (nodup_dedupFirst _)
  · intro s
    rw [categories, List.mem_insertionSort, mem_dedupFirst, List.mem_filter,
      List.mem_map]
    constructor
    · rintro ⟨⟨b, hb, hbs⟩, hs⟩
      exact ⟨by simpa using hs, b, hb, hbs⟩
    · rintro ⟨hs, b, hb, hbs⟩
      exact ⟨⟨b, hb, hbs⟩, by simpa using hs⟩
  · decide

/-- The property claim C3 asserts: after a successful create, the refetch
request carries the query and category filter active at that moment
(`midQ`, `midC` — the values after any mid-flight edits), and the draft is
reset.  Refuted below: the refetch uses the filters captured when the
submit began. -/
def c3_claimed : Prop :=
  ∀ (s : AppState) (midQ midC : String) (lr : ListResult),
    s.form.title ≠ "" → s.form.author ≠ "" → s.form.category ≠ "" →
    (handleSubmitE s midQ midC .ok lr).1.form = emptyForm ∧
    NetEvent.listReq (listParams midQ midC) ∈ (handleSubmitE s midQ midC .ok lr).2

/-- Counterexample to claim C3: with query "old" at submit time and query
"new" typed while the create request was in flight, the post-create
refetch does not use the new filter — the handler's closure still holds
the old one. -/
theorem c3_counterexample : ¬ c3_claimed := by
  intro h
  have hc := h
    { initialState with
        form := { emptyForm with title := "t", author := "a", category := "c" },
        query := "old" }
    "new" "" (.ok []) (by decide) (by decide) (by decide)
  exact absurd hc.2 (by decide)

/-- Claim C3 as amended: a successful create resets the draft to empty and
re-runs List/Search, but with the query and category filter captured when
the submit began (equal to the currently active ones whenever no filter
edit happened during the in-flight request). -/
theorem c3_success_resets_and_refetches (s : AppState) (midQ midC : String)
    (lr : ListResult)
    (h1 : s.form.title ≠ "") (h2 : s.form.author ≠ "") (h3 : s.form.category ≠ "") :
    (handleSubmitE s midQ midC .ok lr).1.form = emptyForm ∧
    (handleSubmitE s midQ midC .ok lr).2 =
      [NetEvent.createReq s.form,
       NetEvent.listReq (listParams s.query s.categoryFilter)] := by
  unfold handleSubmitE
  rw [if_neg (by simp [h1, h2, h3])]
  cases lr <;> exact ⟨rfl, rfl⟩

/-- Witness for the amended C3 on a concrete filled draft with a mid-flight
query edit. -/
theorem c3_success_resets_and_refetches_witness :
    (handleSubmitE
      { initialState with
          form := { emptyForm with title := "t", author := "a", category := "c" },
          query := "old" } "new" "" .ok (.ok [])).1.form = emptyForm ∧
    (handleSubmitE
      { initialState with
          form := { emptyForm with title := "t", author := "a", category := "c" },
          query := "old" } "new" "" .ok (.ok [])).2 =
      [NetEvent.createReq { emptyForm with title := "t", author := "a", category := "c" },
       NetEvent.listReq (listParams "old" "")] :=
  c3_success_resets_and_refetches
    { initialState with
        form := { emptyForm with title := "t", author := "a", category := "c" },
        query := "old" }
    "new" "" (.ok []) (by decide) (by decide) (by decide)

/-- Claim C5: when the create request comes back with a non-success status,
the error message is exactly the response body when that is non-empty and
the fallback "Failed to add book" when it is empty, and the draft is kept
unchanged in either case. -/
theorem c5_create_http_error (s : AppState) (midQ midC body : String)
    (lr : ListResult)
    (h1 : s.form.title ≠ "") (h2 : s.form.author ≠ "") (h3 : s.form.category ≠ "") :
    (handleSubmitE s midQ midC (.httpError body) lr).1.error =
      (if body = "" then "Failed to add book" else body) ∧
    (handleSubmitE s midQ midC (.httpError body) lr).1.form = s.form := by
  unfold handleSubmitE
  rw [if_neg (by simp [h1, h2, h3])]
  exact ⟨rfl, rfl⟩

/-- Witness for C5: a 400 response with body "title required" shows exactly
"title required" and keeps the draft. -/
theorem c5_create_http_error_witness :
    (handleSubmitE
      { initialState with
          form := { emptyForm with title := "t", author := "a", category := "c" } }
      "" "" (.httpError "title required") (.ok [])).1.error =
      (if "title required" = "" then "Failed to add book" else "title required") ∧
    (handleSubmitE
      { initialState with
          form := { emptyForm with title := "t", author := "a", category := "c" } }
      "" "" (.httpError "title required") (.ok [])).1.form =
      ({ initialState with
          form := { emptyForm with title := "t", author := "a", category := "c" } } : AppState).form :=
  c5_create_http_error
    { initialState with
        form := { emptyForm with title := "t", author := "a", category := "c" } }
    "" "" "title required" (.ok []) (by decide) (by decide) (by decide)

/-- Counterexample to claim C6: a confirmed delete answered with a
non-success HTTP status does not set the error message to "Delete failed"
— the handler never inspects the response status, so no error is set at
all on that path. -/
theorem c6_counterexample :
    (handleDeleteE initialState 1 true (.resolved false) (.ok [])).1.error ≠
      "Delete failed" := by
  decide

/-- Claim C6 as amended: only a rejected delete fetch (network error) sets
the error message to "Delete failed", and on that path the refetch inside
the `try` is skipped; a delete request that completes with any HTTP
status — its status is never inspected — sets no delete-specific error
and re-runs List/Search with the active filters. -/
theorem c6_delete_outcomes (s : AppState) (id : Nat) (ok : Bool)
    (lr : ListResult) :
    ((handleDeleteE s id true .netError lr).1 = { s with error := "Delete failed" } ∧
     (handleDeleteE s id true .netError lr).2 = [NetEvent.deleteReq id]) ∧
    ((handleDeleteE s id true (.resolved ok) lr).1 =
       (fetchBooksWith s.query s.categoryFilter s lr).1 ∧
     (handleDeleteE s id true (.resolved ok) lr).2 =
       NetEvent.deleteReq id :: (fetchBooksWith s.query s.categoryFilter s lr).2) :=
  ⟨⟨rfl, rfl⟩, rfl, rfl⟩

/-- Claim C8: at most one book is expanded — the expanded id is a single
optional value, expanding a different book replaces it, and toggling the
currently expanded book collapses it to none. -/
theorem c8_single_expansion (s : AppState) (i j b : Nat)
    (hi : s.expandedId = some i) :
    (s.expandedId = some j → j = i) ∧
    (toggleExpanded s i).expandedId = none ∧
    (i ≠ b → (toggleExpanded s b).expandedId = some b ∧
      (toggleExpanded s b).expandedId ≠ some i) := by
  refine ⟨fun hj => ?_, ?_, fun hib => ?_⟩
  · rw [hi] at hj
    exact (Option.some_inj.mp hj).symm
  · simp [toggleExpanded, hi]
  · simp [toggleExpanded, hi, Ne.symm hib, hib]

/-- Witness for C8: with book 1 expanded, toggling 1 collapses everything
and expanding 2 replaces 1. -/
theorem c8_single_expansion_witness :
    (({ initialState with expandedId := some 1 } : AppState).expandedId = some 1 →
      (1 : Nat) = 1) ∧
    (toggleExpanded { initialState with expandedId := some 1 } 1).expandedId = none ∧
    ((1 : Nat) ≠ 2 →
      (toggleExpanded { initialState with expandedId := some 1 } 2).expandedId = some 2 ∧
      (toggleExpanded { initialState with expandedId := some 1 } 2).expandedId ≠ some 1) :=
  c8_single_expansion { initialState with expandedId := some 1 } 1 1 2 rfl

end BookApp
